import Mathlib

/-!
Verification of the ProfIngles voice-chat frontend.

The development shallowly embeds the stateful React components as pure
state-transition functions:

* `RealTimeChat.tsx` — chat state, the WebSocket `onmessage` handler for
  `chat_response` events (rolling statistics), `sendMessage`, `processAudio`,
  `startRecording`/`stopRecording`, and the `useEffect` connect/cleanup logic.
* `useAudioPlayer.ts` — the audio playback hook (`playAudio` and the
  `ended`/`error` listeners).
* `AdvancedVoiceChat` — the WebSocket connection lifecycle
  (`connectWebSocket`, `onopen`/`onclose`/`onerror`, the reconnect timer) and
  the `model_preference` field of the chat dispatch.

Floating-point latencies are modelled as rationals; opaque runtime objects
(MediaRecorder instances, Audio elements) are modelled by numeric identifiers.
-/

namespace ProfIngles

/-! ### Chat state (RealTimeChat.tsx) -/

/-- Message role, mirroring the `role: 'user' | 'assistant'` field. -/
inductive Role
  | user
  | assistant
deriving DecidableEq, Repr

/-- The `Message` interface of RealTimeChat.tsx (id and timestamp omitted:
they are display-only and never read by the logic under verification). -/
structure Message where
  role : Role
  content : String
  processingTime : Option ℚ := none
deriving DecidableEq, Repr

/-- The React state of the `RealTimeChat` component that the handlers read
and write: `messages`, `isProcessing`, `inputText`, `totalMessages`,
`avgResponseTime`. -/
structure ChatState where
  messages : List Message := []
  isProcessing : Bool := false
  inputText : String := ""
  totalMessages : ℕ := 0
  avgResponseTime : ℚ := 0
deriving DecidableEq, Repr

/-- The assistant message built by the `chat_response` handler. -/
def assistantMessage (content : String) (pt : Option ℚ) : Message :=
  { role := .assistant, content := content, processingTime := pt }

/-- The `onmessage` branch for `data.type === 'chat_response'`
(RealTimeChat.tsx lines 36–58): append the assistant message, clear
`isProcessing`, and — only when `data.processing_time` is truthy (present and
nonzero, per JavaScript truthiness) — increment `totalMessages` and fold the
latency into `avgResponseTime` by the incremental-mean update
`(prev * totalMessages + processing_time) / (totalMessages + 1)`.
Because the effect re-subscribes on every `totalMessages` change, the
`totalMessages` captured by the handler closure is the pre-update count. -/
def handleChatResponse (s : ChatState) (content : String) (pt : Option ℚ) :
    ChatState :=
  let s1 : ChatState :=
    { s with
      messages := s.messages ++ [assistantMessage content pt],
      isProcessing := false }
  match pt with
  | none => s1
  | some q =>
      if q = 0 then s1
      else
        { s1 with
          totalMessages := s.totalMessages + 1,
          avgResponseTime :=
            (s.avgResponseTime * (s.totalMessages : ℚ) + q) /
              ((s.totalMessages : ℚ) + 1) }

/-- Fold a sequence of inbound `chat_response` events (their
`processing_time` fields) through the handler. -/
def runChatResponses (s : ChatState) (pts : List (Option ℚ)) : ChatState :=
  pts.foldl (fun st pt => handleChatResponse st "reply" pt) s

/-! ### Rolling statistics lemmas -/

lemma handleChatResponse_totalMessages_of_ne (s : ChatState) (c : String)
    (q : ℚ) (hq : q ≠ 0) :
    (handleChatResponse s c (some q)).totalMessages = s.totalMessages + 1 := by
  simp [handleChatResponse, hq]

lemma handleChatResponse_avg_of_ne (s : ChatState) (c : String)
    (q : ℚ) (hq : q ≠ 0) :
    (handleChatResponse s c (some q)).avgResponseTime =
      (s.avgResponseTime * (s.totalMessages : ℚ) + q) /
        ((s.totalMessages : ℚ) + 1) := by
  simp [handleChatResponse, hq]

/-- Invariant carried through the fold: the completed-turn count advances by
the number of (nonzero) latencies consumed, and `avg * count` tracks the sum
of consumed latencies. -/
lemma runChatResponses_count_sum (L : List ℚ) :
    ∀ s : ChatState, (∀ x ∈ L, x ≠ 0) →
      (runChatResponses s (L.map some)).totalMessages =
        s.totalMessages + L.length ∧
      (runChatResponses s (L.map some)).avgResponseTime *
          ((s.totalMessages : ℚ) + L.length) =
        s.avgResponseTime * (s.totalMessages : ℚ) + L.sum := by
  induction L with
  | nil =>
      intro s _
      simp [runChatResponses]
  | cons x L ih =>
      intro s hL
      have hx : x ≠ 0 := hL x (by simp)
      have hL' : ∀ y ∈ L, y ≠ 0 := fun y hy => hL y (by simp [hy])
      have hrun : runChatResponses s ((x :: L).map some) =
          runChatResponses (handleChatResponse s "reply" (some x))
            (L.map some) := by
        simp [runChatResponses]
      have hcount := (ih (handleChatResponse s "reply" (some x)) hL').1
      have hsum := (ih (handleChatResponse s "reply" (some x)) hL').2
      rw [hrun]
      constructor
      · rw [hcount, handleChatResponse_totalMessages_of_ne s _ x hx]
        simp only [List.length_cons]
        omega
      · have hn1 : ((s.totalMessages : ℚ) + 1) ≠ 0 := by positivity
        rw [handleChatResponse_totalMessages_of_ne s _ x hx,
          handleChatResponse_avg_of_ne s _ x hx] at hsum
        push_cast at hsum
        rw [div_mul_cancel₀ _ hn1] at hsum
        simp only [List.length_cons, List.sum_cons]
        push_cast
        linear_combination hsum

/-! ### Claim C1 — rolling average vs arithmetic mean -/

/-- C1 counterexample: a completed turn whose `processing_time` is `0` is
skipped by the `if (data.processing_time)` guard, so after one completed turn
with latency `L1 = 0` the completed-turn count is `0`, not `1` as the claim
("the completed-turn count is incremented exactly once per completed turn")
requires. -/
theorem c1_zero_latency_counterexample :
    (runChatResponses {} [some (0 : ℚ)]).totalMessages = 0 ∧
      (runChatResponses {} [some (0 : ℚ)]).totalMessages ≠ 1 := by
  constructor <;> decide

/-- C1 (amended): for every sequence of completed turns whose latencies are
all nonzero, the running average after the `n`-th turn equals the exact
arithmetic mean of `L1..Ln`, computed by the incremental update
`avg' = (avg * n + latency) / (n + 1)`, and the completed-turn count is
incremented exactly once per such turn; turns whose `processing_time` is
absent or zero are excluded. -/
theorem rollingStats_exact_mean (L : List ℚ) (hL : ∀ x ∈ L, x ≠ 0)
    (hne : L ≠ []) :
    (runChatResponses {} (L.map some)).totalMessages = L.length ∧
      (runChatResponses {} (L.map some)).avgResponseTime =
        L.sum / (L.length : ℚ) := by
  obtain ⟨hcount, hsum⟩ := runChatResponses_count_sum L {} hL
  refine ⟨by simpa using hcount, ?_⟩
  have hlen : (L.length : ℚ) ≠ 0 := by
    have : L.length ≠ 0 := fun h => hne (List.eq_nil_of_length_eq_zero h)
    exact_mod_cast this
  have hsum' : (runChatResponses {} (L.map some)).avgResponseTime *
      (L.length : ℚ) = L.sum := by
    simpa using hsum
  field_simp
  linarith [hsum']

/-- Witness for `rollingStats_exact_mean` at the latency sequence `[1, 2]`:
the count reaches `2` and the average is `3/2`. -/
theorem rollingStats_exact_mean_witness :
    (runChatResponses {} ([(1 : ℚ), 2].map some)).totalMessages = 2 ∧
      (runChatResponses {} ([(1 : ℚ), 2].map some)).avgResponseTime =
        ([(1 : ℚ), 2].sum) / (([(1 : ℚ), 2].length : ℚ)) := by
  have h := rollingStats_exact_mean [(1 : ℚ), 2]
    (by intro x hx; fin_cases hx <;> norm_num) (by simp)
  simpa using h

/-! ### Claim C10 — zero or absent processing_time is excluded from stats -/

/-- C10: an inbound `chat_response` whose `processing_time` is absent or zero
still appends the assistant message (and clears `isProcessing`), but leaves
both the completed-turn count and the running average unchanged. -/
theorem chatResponse_zero_latency_excluded (s : ChatState) (c : String)
    (pt : Option ℚ) (h : pt = none ∨ pt = some 0) :
    (handleChatResponse s c pt).messages =
      s.messages ++ [assistantMessage c pt] ∧
      (handleChatResponse s c pt).isProcessing = false ∧
      (handleChatResponse s c pt).totalMessages = s.totalMessages ∧
      (handleChatResponse s c pt).avgResponseTime = s.avgResponseTime := by
  rcases h with h | h <;> subst h <;> simp [handleChatResponse]

/-- Witness for `chatResponse_zero_latency_excluded` at the empty state and a
zero latency. -/
theorem chatResponse_zero_latency_excluded_witness :
    (handleChatResponse {} "ok" (some 0)).messages =
      ([] : List Message) ++ [assistantMessage "ok" (some 0)] ∧
      (handleChatResponse {} "ok" (some 0)).isProcessing = false ∧
      (handleChatResponse {} "ok" (some 0)).totalMessages =
        ChatState.totalMessages {} ∧
      (handleChatResponse {} "ok" (some 0)).avgResponseTime =
        ChatState.avgResponseTime {} :=
  chatResponse_zero_latency_excluded {} "ok" (some 0) (Or.inr rfl)

/-! ### Sending a turn (RealTimeChat.tsx `sendMessage`, lines 165–184) -/

/-- Error taxonomy names from the specification. The source code of
`sendMessage` has no failure path at all, which the theorems below make
explicit. -/
inductive WsError
  | notConnected
deriving DecidableEq, Repr

/-- The user message appended by `sendMessage`. -/
def userMessage (text : String) : Message :=
  { role := .user, content := text, processingTime := none }

/-- Result of a `sendMessage` call: the updated component state, the list of
payload texts actually written to the WebSocket by this call, and the error
surfaced to the caller (always `none` in the source: the function neither
throws nor returns a failure when the socket is not open). -/
structure SendResult where
  state : ChatState
  sent : List String := []
  error : Option WsError := none
deriving DecidableEq, Repr

/-- `sendMessage(text)` from RealTimeChat.tsx: append the user-role message,
clear the input, set `isProcessing`, and — only if the WebSocket exists and
`readyState === WebSocket.OPEN` — send the chat payload. If the socket is not
open, the body of the `if` is skipped and the function returns normally:
nothing is sent and no error is produced. -/
def sendMessage (s : ChatState) (wsOpen : Bool) (text : String) : SendResult :=
  let s1 : ChatState :=
    { s with
      messages := s.messages ++ [userMessage text]
      inputText := ""
      isProcessing := true }
  if wsOpen then { state := s1, sent := [text], error := none }
  else { state := s1, sent := [], error := none }

/-! ### Claim C7 — send while not connected -/

/-- C7 counterexample: with the socket not open, `sendMessage` returns no
`NotConnected` failure (its error component is `none`) and the message is
silently not transmitted, while the user-role message has still been appended
locally; the claim says the operation fails with `NotConnected` rather than
silently discarding the message. -/
theorem c7_not_connected_counterexample :
    (sendMessage {} false "hello").error = none ∧
      (sendMessage {} false "hello").error ≠ some .notConnected ∧
      (sendMessage {} false "hello").sent = [] := by
  refine ⟨rfl, ?_, rfl⟩
  decide

/-- C7 (amended): for every message, when the connection is not open,
`sendMessage` silently skips transmission: nothing is sent over the channel,
no failure (in particular no `NotConnected`) is surfaced to the caller, the
user-role message is still appended locally and `isProcessing` is set. -/
theorem sendMessage_silent_when_not_connected (s : ChatState) (text : String) :
    (sendMessage s false text).sent = [] ∧
      (sendMessage s false text).error = none ∧
      (sendMessage s false text).state.messages =
        s.messages ++ [userMessage text] ∧
      (sendMessage s false text).state.isProcessing = true := by
  refine ⟨rfl, rfl, ?_, rfl⟩
  simp [sendMessage]

/-! ### Claim C2 — single outstanding dispatched turn -/

/-- Task-level events of the dispatch cycle of RealTimeChat.tsx, at the
granularity of the browser event loop:

* `startClick` — the microphone button is clicked while not recording. It is
  `disabled={isProcessing}`; otherwise `startRecording` begins a recording.
  Nothing is dispatched.
* `stopClick` — the microphone button is clicked while recording. It is
  `disabled={isProcessing}`; otherwise `mediaRecorder.stop()` is called,
  which only queues that recorder's `onstop` task: nothing is dispatched
  yet, and several stopped recordings can have their `onstop` continuations
  queued or in flight at once.
* `textSubmit` — the text form is submitted. The input field and the submit
  button are rendered with `disabled={isProcessing}`, so the event has no
  effect while `isProcessing`; otherwise `sendMessage` runs synchronously in
  the handler: it sets `isProcessing` and, if the socket is open, writes one
  request to the channel (guard and send are atomic for this path).
* `transcriptionDone` — one queued `onstop` task has run `processAudio` and
  its transcription fetch has resolved with non-empty text: `processAudio`
  sets `isProcessing` and calls `sendMessage` without checking whether a
  turn is already outstanding.
* `transcriptionFailed` — one pending transcription resolved empty (or its
  fetch rejected): `processAudio` resets `isProcessing` and dispatches
  nothing.
* `chatResponse` — an inbound `chat_response` resolves an outstanding
  request and clears `isProcessing`. -/
inductive TurnEvent
  | startClick
  | stopClick
  | textSubmit (wsOpen : Bool)
  | transcriptionDone (wsOpen : Bool)
  | transcriptionFailed
  | chatResponse
deriving DecidableEq, Repr

/-- Dispatch-cycle state: the `isProcessing` and `isRecording` flags, the
number of stopped recordings whose `processAudio` continuation has not yet
resolved (each one will dispatch or abort independently), and the number of
dispatched-but-unanswered requests on the channel. -/
structure TurnState where
  isProcessing : Bool := false
  isRecording : Bool := false
  pendingAudio : ℕ := 0
  outstanding : ℕ := 0
deriving DecidableEq, Repr

/-- One task of the dispatch cycle. -/
def turnStep (s : TurnState) : TurnEvent → TurnState
  | .startClick =>
      if s.isProcessing || s.isRecording then s
      else { s with isRecording := true }
  | .stopClick =>
      if s.isProcessing then s
      else if s.isRecording then
        { s with isRecording := false, pendingAudio := s.pendingAudio + 1 }
      else s
  | .textSubmit wsOpen =>
      if s.isProcessing then s
      else
        { s with
          isProcessing := true
          outstanding := s.outstanding + (if wsOpen then 1 else 0) }
  | .transcriptionDone wsOpen =>
      if s.pendingAudio = 0 then s
      else
        { s with
          isProcessing := true
          pendingAudio := s.pendingAudio - 1
          outstanding := s.outstanding + (if wsOpen then 1 else 0) }
  | .transcriptionFailed =>
      if s.pendingAudio = 0 then s
      else
        { s with isProcessing := false, pendingAudio := s.pendingAudio - 1 }
  | .chatResponse =>
      { s with isProcessing := false, outstanding := s.outstanding - 1 }

/-- Run the dispatch cycle from the initial component state. -/
def runTurns (evs : List TurnEvent) : TurnState :=
  evs.foldl turnStep {}

/-- C2 counterexample: the guard on the audio path is not atomic with its
dispatch, and nothing limits how many stopped recordings are in flight. Two
violations, both reachable with `isProcessing` still `false` throughout the
stop window. First trace: the user records and stops twice before either
`onstop` continuation resolves (the mic button re-enables as soon as
`isRecording` clears); each `processAudio` then dispatches unconditionally,
leaving two unanswered turns. Second trace: the user stops one recording and
submits a text turn before `onstop` runs; the transcription then dispatches
on top of it. -/
theorem c2_race_counterexample :
    (runTurns [.startClick, .stopClick, .startClick, .stopClick,
      .transcriptionDone true, .transcriptionDone true]).outstanding = 2 ∧
      (runTurns [.startClick, .stopClick, .textSubmit true,
        .transcriptionDone true]).outstanding = 2 ∧
      ¬ (runTurns [.startClick, .stopClick, .startClick, .stopClick,
        .transcriptionDone true, .transcriptionDone true]).outstanding ≤
          1 := by
  refine ⟨rfl, rfl, ?_⟩
  decide

/-- An event respects the stop-to-transcription window when it is neither a
text submission nor a recording stop made while a previously stopped
recording's dispatch is still pending. -/
def noRaceAt (s : TurnState) : TurnEvent → Bool
  | .textSubmit _ => s.pendingAudio == 0
  | .stopClick => s.pendingAudio == 0
  | _ => true

/-- A trace is race-free when no text turn is submitted and no further
recording is stopped while a stopped recording's transcription is still
pending dispatch. -/
def raceFree : TurnState → List TurnEvent → Bool
  | _, [] => true
  | s, e :: evs => noRaceAt s e && raceFree (turnStep s e) evs

/-- Inductive invariant for race-free executions: never more than one
outstanding request, none when `isProcessing` is clear, at most one pending
audio continuation, and none outstanding while one is pending. -/
def turnInv (s : TurnState) : Prop :=
  s.outstanding ≤ 1 ∧ (s.isProcessing = false → s.outstanding = 0) ∧
    s.pendingAudio ≤ 1 ∧ (1 ≤ s.pendingAudio → s.outstanding = 0)

lemma turnStep_preserves_inv (s : TurnState) (e : TurnEvent)
    (h : turnInv s) (hg : noRaceAt s e = true) :
    turnInv (turnStep s e) := by
  obtain ⟨h1, h2, h3, h4⟩ := h
  cases e with
  | startClick =>
      by_cases hp : s.isProcessing || s.isRecording
      · have hid : turnStep s .startClick = s := by simp [turnStep, hp]
        rw [hid]; exact ⟨h1, h2, h3, h4⟩
      · simp only [turnStep, hp, if_false]
        exact ⟨h1, h2, h3, h4⟩
  | stopClick =>
      have hpa : s.pendingAudio = 0 := by simpa [noRaceAt] using hg
      by_cases hp : s.isProcessing
      · have hid : turnStep s .stopClick = s := by simp [turnStep, hp]
        rw [hid]; exact ⟨h1, h2, h3, h4⟩
      · have h0 : s.outstanding = 0 := h2 (by simpa using hp)
        by_cases hrec : s.isRecording
        · simp [turnStep, hp, hrec, turnInv, h0, hpa]
        · have hid : turnStep s .stopClick = s := by
            simp [turnStep, hp, hrec]
          rw [hid]; exact ⟨h1, h2, h3, h4⟩
  | textSubmit wsOpen =>
      have hpa : s.pendingAudio = 0 := by simpa [noRaceAt] using hg
      by_cases hp : s.isProcessing
      · have hid : turnStep s (.textSubmit wsOpen) = s := by
          simp [turnStep, hp]
        rw [hid]; exact ⟨h1, h2, h3, h4⟩
      · have h0 : s.outstanding = 0 := h2 (by simpa using hp)
        cases wsOpen <;> simp [turnStep, hp, turnInv, h0, hpa]
  | transcriptionDone wsOpen =>
      by_cases hp : s.pendingAudio = 0
      · have hid : turnStep s (.transcriptionDone wsOpen) = s := by
          simp [turnStep, hp]
        rw [hid]; exact ⟨h1, h2, h3, h4⟩
      · have h0 : s.outstanding = 0 := h4 (by omega)
        cases wsOpen <;>
          simp [turnStep, hp, turnInv, h0] <;> omega
  | transcriptionFailed =>
      by_cases hp : s.pendingAudio = 0
      · have hid : turnStep s .transcriptionFailed = s := by
          simp [turnStep, hp]
        rw [hid]; exact ⟨h1, h2, h3, h4⟩
      · have h0 : s.outstanding = 0 := h4 (by omega)
        simp [turnStep, hp, turnInv, h0]
        omega
  | chatResponse =>
      refine ⟨?_, fun _ => ?_, ?_, fun hpa => ?_⟩
      · show s.outstanding - 1 ≤ 1
        omega
      · show s.outstanding - 1 = 0
        omega
      · show s.pendingAudio ≤ 1
        exact h3
      · have h0 : s.outstanding = 0 :=
          h4 (by simpa [turnStep] using hpa)
        show s.outstanding - 1 = 0
        omega

lemma raceFree_foldl_inv (evs : List TurnEvent) :
    ∀ s : TurnState, turnInv s → raceFree s evs = true →
      turnInv (evs.foldl turnStep s) := by
  induction evs with
  | nil => intro s hs _; simpa using hs
  | cons e evs ih =>
      intro s hs hr
      rw [raceFree, Bool.and_eq_true] at hr
      exact ih _ (turnStep_preserves_inv s e hs hr.1) hr.2

/-- C2 (amended): at most one dispatched-but-unanswered turn exists at any
time in every race-free execution — one in which, while a stopped
recording's transcription is still pending dispatch, no text turn is
submitted and no further recording is stopped. The dispatch controls are
disabled while `isProcessing`, and `isProcessing` is cleared only on reply
or transcription failure; the audio continuation itself re-checks nothing
(its guard is at the stop click, not at the send), so either race in that
window produces a second outstanding turn (see the counterexample). -/
theorem single_outstanding_turn (evs : List TurnEvent)
    (hr : raceFree {} evs = true) :
    (runTurns evs).outstanding ≤ 1 :=
  (raceFree_foldl_inv evs {}
    ⟨by simp, fun _ => by simp, by simp, fun h => by simp at h⟩ hr).1

/-- Witness for `single_outstanding_turn`: a full voice turn followed by a
text turn, each answered before the next dispatch. -/
theorem single_outstanding_turn_witness :
    raceFree {} [.startClick, .stopClick, .transcriptionDone true,
        .chatResponse, .textSubmit true, .chatResponse] = true ∧
      (runTurns [.startClick, .stopClick, .transcriptionDone true,
        .chatResponse, .textSubmit true, .chatResponse]).outstanding ≤ 1 :=
  ⟨rfl, single_outstanding_turn _ rfl⟩

/-! ### Claim C3 — transcription failure commits no turn -/

/-- Outcome of the `fetch` to the transcription endpoint in `processAudio`
(RealTimeChat.tsx lines 136–162): the request can reject (`fetchError`, the
`catch` branch), return a non-ok HTTP status (`httpNotOk`, in which case the
source does nothing at all), or deliver a transcription text. -/
inductive TranscribeOutcome
  | fetchError
  | httpNotOk
  | ok (text : String)
deriving DecidableEq, Repr

/-- Error name from the specification taxonomy for transcription aborts.
The source computes no error value on any abort path of `processAudio` —
the `catch` branch only logs and resets `isProcessing`, the empty-trim
branch only resets `isProcessing`, and a non-ok HTTP response does nothing
at all — which the theorems below make explicit. -/
inductive PipeError
  | transcriptionFailed
deriving DecidableEq, Repr

/-- JavaScript `String.prototype.trim()`: strip leading and trailing
whitespace. Written by structural recursion over the character list so that
concrete instances evaluate inside the kernel. -/
def jsTrim (s : String) : String :=
  String.mk
    (((s.data.dropWhile Char.isWhitespace).reverse.dropWhile
      Char.isWhitespace).reverse)

/-- Result of a `processAudio` call: the updated component state, the
payload texts written to the WebSocket, and the error surfaced to the
caller — always `none` in the source, which has no error channel on any
path. -/
structure AudioResult where
  state : ChatState
  sent : List String := []
  error : Option PipeError := none
deriving DecidableEq, Repr

/-- `processAudio` from RealTimeChat.tsx: set `isProcessing`, then — on a
successful fetch whose text is non-empty after `trim()` — hand the
(untrimmed) text to `sendMessage`; on a rejected fetch (`catch`: log and
reset `isProcessing`) or an empty/whitespace transcription (reset
`isProcessing`), stop; on a non-ok HTTP response, stop without even
resetting `isProcessing`. No branch computes or surfaces an error value, so
`error` is `none` on every path. -/
def processAudio (s : ChatState) (wsOpen : Bool) (o : TranscribeOutcome) :
    AudioResult :=
  let s1 : ChatState := { s with isProcessing := true }
  match o with
  | .fetchError =>
      { state := { s1 with isProcessing := false }, sent := [], error := none }
  | .httpNotOk => { state := s1, sent := [], error := none }
  | .ok t =>
      if jsTrim t = "" then
        { state := { s1 with isProcessing := false }, sent := [],
          error := none }
      else
        let r := sendMessage s1 wsOpen t
        { state := r.state, sent := r.sent, error := none }

/-- C3 counterexample: an empty transcription aborts without reporting
anything — `processAudio` surfaces no error at all, in particular not
`TranscriptionFailed` as the claim requires (it merely resets
`isProcessing`; no turn is appended). -/
theorem c3_silent_abort_counterexample :
    (processAudio {} true (.ok "")).error = none ∧
      (processAudio {} true (.ok "")).error ≠
        some .transcriptionFailed ∧
      (processAudio {} true (.ok "")).state.messages = [] := by
  refine ⟨rfl, ?_, rfl⟩
  decide

/-- C3 (amended): whenever the transcription fetch errors or yields empty or
whitespace-only text, `processAudio` aborts without adding any turn — no
message (in particular no user-role turn) is appended to the conversation
and nothing is dispatched over the channel — but the abort is silent: no
`TranscriptionFailed` (or any) error is surfaced. The rejected-fetch and
empty-transcription branches reset `isProcessing`; a non-ok HTTP response
leaves `isProcessing` stuck at `true`. -/
theorem transcription_failure_silent_no_turn (s : ChatState) (wsOpen : Bool)
    (o : TranscribeOutcome)
    (h : o = .fetchError ∨ o = .httpNotOk ∨ ∃ t, o = .ok t ∧ jsTrim t = "") :
    (processAudio s wsOpen o).state.messages = s.messages ∧
      (processAudio s wsOpen o).sent = [] ∧
      (processAudio s wsOpen o).error = none ∧
      (o = .httpNotOk → (processAudio s wsOpen o).state.isProcessing = true) ∧
      (o ≠ .httpNotOk →
        (processAudio s wsOpen o).state.isProcessing = false) := by
  rcases h with h | h | ⟨t, ht, htrim⟩
  · subst h
    refine ⟨rfl, rfl, rfl, ?_, ?_⟩
    · intro hc
      exact absurd hc (by decide)
    · intro _
      rfl
  · subst h
    refine ⟨rfl, rfl, rfl, ?_, ?_⟩
    · intro _
      rfl
    · intro hc
      exact absurd rfl hc
  · subst ht
    refine ⟨?_, ?_, ?_, ?_, ?_⟩
    · simp [processAudio, htrim]
    · simp [processAudio, htrim]
    · simp [processAudio, htrim]
    · intro hc
      exact TranscribeOutcome.noConfusion hc
    · intro _
      simp [processAudio, htrim]

/-- Witness for `transcription_failure_silent_no_turn`: a whitespace-only
transcription text commits nothing, surfaces nothing, and resets
`isProcessing`. -/
theorem transcription_failure_silent_no_turn_witness :
    (processAudio {} true (.ok "   ")).state.messages =
        ChatState.messages {} ∧
      (processAudio {} true (.ok "   ")).sent = [] ∧
      (processAudio {} true (.ok "   ")).error = none ∧
      ((TranscribeOutcome.ok "   ") = .httpNotOk →
        (processAudio {} true (.ok "   ")).state.isProcessing = true) ∧
      ((TranscribeOutcome.ok "   ") ≠ .httpNotOk →
        (processAudio {} true (.ok "   ")).state.isProcessing = false) :=
  transcription_failure_silent_no_turn {} true (.ok "   ")
    (Or.inr (Or.inr ⟨"   ", rfl, by simp [jsTrim]⟩))

/-! ### Playback (useAudioPlayer.ts) -/

/-- State of the `useAudioPlayer` hook: the `isPlaying` flag, the `audioRef`
(identifier of the current `Audio` element), and — as the observable trace of
side effects on earlier playbacks — the identifiers that have been paused by
`audioRef.current.pause()`. -/
structure PlayerState where
  isPlaying : Bool := false
  current : Option ℕ := none
  paused : List ℕ := []
deriving DecidableEq, Repr

/-- Result signal of a `playAudio` call. `playbackBusy` names the
specification's rejection outcome; the source never produces it. -/
inductive PlayOutcome
  | started
  | playbackBusy
deriving DecidableEq, Repr

/-- `playAudio(audioBlob)` from useAudioPlayer.ts (lines 9–47): if an
`Audio` element is registered, pause it and drop the reference; then create
the new element, register it, set `isPlaying` and start it. There is no busy
check and no failure result. -/
def playAudio (s : PlayerState) (a : ℕ) : PlayerState × PlayOutcome :=
  let paused' : List ℕ :=
    match s.current with
    | some c => s.paused ++ [c]
    | none => s.paused
  ({ isPlaying := true, current := some a, paused := paused' }, .started)

/-- The `ended` listener: clear `isPlaying` (the `audioRef` is not cleared
by the source). -/
def handleEnded (s : PlayerState) : PlayerState := { s with isPlaying := false }

/-- The `error` listener: clear `isPlaying`. -/
def handleAudioError (s : PlayerState) : PlayerState :=
  { s with isPlaying := false }

/-! ### Claim C4 — play while busy -/

/-- C4 counterexample: with playback `1` in progress, `playAudio 2` does not
fail with `PlaybackBusy` — it succeeds, and the original playback is paused
and replaced, so it is not unaffected. -/
theorem c4_playback_busy_counterexample :
    (playAudio { isPlaying := true, current := some 1 } 2).2 ≠
        .playbackBusy ∧
      (playAudio { isPlaying := true, current := some 1 } 2).1.current =
        some 2 ∧
      (playAudio { isPlaying := true, current := some 1 } 2).1.paused =
        [1] := by
  refine ⟨?_, rfl, rfl⟩
  decide

/-- C4 (amended): `playAudio` never fails with `PlaybackBusy`: if a playback
is in progress it is paused and replaced by the new one (last writer wins);
the new playback begins with the busy flag set, and completion or error
resets the busy flag. -/
theorem playAudio_replaces_current (s : PlayerState) (a : ℕ) :
    (playAudio s a).2 = .started ∧
      (playAudio s a).1.isPlaying = true ∧
      (playAudio s a).1.current = some a ∧
      (∀ c, s.current = some c → (playAudio s a).1.paused = s.paused ++ [c]) ∧
      (handleEnded (playAudio s a).1).isPlaying = false ∧
      (handleAudioError (playAudio s a).1).isPlaying = false := by
  refine ⟨rfl, rfl, rfl, ?_, rfl, rfl⟩
  intro c hc
  simp [playAudio, hc]

/-- Witness for `playAudio_replaces_current` while playback `1` is busy. -/
theorem playAudio_replaces_current_witness :
    (playAudio { isPlaying := true, current := some 1 } 2).2 = .started ∧
      (playAudio { isPlaying := true, current := some 1 } 2).1.isPlaying =
        true ∧
      (playAudio { isPlaying := true, current := some 1 } 2).1.current =
        some 2 ∧
      (∀ c, (PlayerState.current { isPlaying := true, current := some 1 }) =
        some c →
        (playAudio { isPlaying := true, current := some 1 } 2).1.paused =
          PlayerState.paused { isPlaying := true, current := some 1 } ++
            [c]) ∧
      (handleEnded
        (playAudio { isPlaying := true, current := some 1 } 2).1).isPlaying =
          false ∧
      (handleAudioError
        (playAudio { isPlaying := true, current := some 1 } 2).1).isPlaying =
          false :=
  playAudio_replaces_current { isPlaying := true, current := some 1 } 2

/-! ### Recording (RealTimeChat.tsx `startRecording`/`stopRecording`) -/

/-- Capture state: the `isRecording` flag, the `mediaRecorderRef`, and the
set of `MediaRecorder` instances that have been started and not stopped
(each holds its own microphone stream until its `onstop` runs). -/
structure RecState where
  isRecording : Bool := false
  mediaRecorder : Option ℕ := none
  activeRecorders : List ℕ := []
deriving DecidableEq, Repr

/-- Result signal of a `startRecording` call. `alreadyRecording` names the
specification's rejection outcome; the source never produces it. -/
inductive RecOutcome
  | startedRec
  | alreadyRecording
deriving DecidableEq, Repr

/-- `startRecording` from RealTimeChat.tsx (lines 100–125): acquire a
stream, create a fresh `MediaRecorder`, overwrite `mediaRecorderRef`, start
it and set `isRecording`. There is no check of `isRecording`: any previously
running recorder keeps recording its own stream. -/
def startRecording (s : RecState) (newRec : ℕ) : RecState × RecOutcome :=
  ({ isRecording := true
     mediaRecorder := some newRec
     activeRecorders := s.activeRecorders ++ [newRec] }, .startedRec)

/-- `stopRecording` from RealTimeChat.tsx (lines 128–133): if a recorder is
registered and `isRecording` is set, stop the registered recorder and clear
the flag; otherwise do nothing. -/
def stopRecording (s : RecState) : RecState :=
  match s.mediaRecorder with
  | some c =>
      if s.isRecording then
        { s with
          isRecording := false
          activeRecorders := s.activeRecorders.erase c }
      else s
  | none => s

/-- The microphone button (RealTimeChat.tsx lines 280–294): disabled while
`isProcessing`; otherwise it invokes `stopRecording` when recording and
`startRecording` when not. -/
def micButtonClick (s : RecState) (isProcessing : Bool) (newRec : ℕ) :
    RecState × Option RecOutcome :=
  if isProcessing then (s, none)
  else if s.isRecording then (stopRecording s, none)
  else
    let r := startRecording s newRec
    (r.1, some r.2)

/-! ### Claim C9 — start while already recording -/

/-- C9 counterexample: with recorder `0` active, calling `startRecording`
again does not fail with `AlreadyRecording` — it starts a second recorder,
leaving two recorders active. -/
theorem c9_already_recording_counterexample :
    (startRecording
        { isRecording := true, mediaRecorder := some 0,
          activeRecorders := [0] } 1).2 ≠ .alreadyRecording ∧
      (startRecording
        { isRecording := true, mediaRecorder := some 0,
          activeRecorders := [0] } 1).1.activeRecorders = [0, 1] := by
  refine ⟨?_, rfl⟩
  decide

/-- C9 (amended): `startRecording` performs no `AlreadyRecording` check:
called while a recording is active it succeeds, starts a second recorder and
replaces the recorder reference, leaving the earlier recorder running; the
UI avoids this only because the microphone button toggles to `stopRecording`
while `isRecording` is set. -/
theorem startRecording_no_guard (s : RecState) (newRec : ℕ) :
    (startRecording s newRec).2 = .startedRec ∧
      (startRecording s newRec).1.isRecording = true ∧
      (startRecording s newRec).1.mediaRecorder = some newRec ∧
      (startRecording s newRec).1.activeRecorders =
        s.activeRecorders ++ [newRec] ∧
      (s.isRecording = true →
        micButtonClick s false newRec = (stopRecording s, none)) := by
  refine ⟨rfl, rfl, rfl, rfl, ?_⟩
  intro h
  simp [micButtonClick, h]

/-- Witness for `startRecording_no_guard` at an actively recording state. -/
theorem startRecording_no_guard_witness :
    (startRecording
        { isRecording := true, mediaRecorder := some 0,
          activeRecorders := [0] } 1).2 = .startedRec ∧
      (startRecording
        { isRecording := true, mediaRecorder := some 0,
          activeRecorders := [0] } 1).1.isRecording = true ∧
      (startRecording
        { isRecording := true, mediaRecorder := some 0,
          activeRecorders := [0] } 1).1.mediaRecorder = some 1 ∧
      (startRecording
        { isRecording := true, mediaRecorder := some 0,
          activeRecorders := [0] } 1).1.activeRecorders = [0] ++ [1] ∧
      (RecState.isRecording
          { isRecording := true, mediaRecorder := some 0,
            activeRecorders := [0] } = true →
        micButtonClick
            { isRecording := true, mediaRecorder := some 0,
              activeRecorders := [0] } false 1 =
          (stopRecording
            { isRecording := true, mediaRecorder := some 0,
              activeRecorders := [0] }, none)) :=
  startRecording_no_guard
    { isRecording := true, mediaRecorder := some 0, activeRecorders := [0] } 1

/-! ### Connection lifecycle (AdvancedVoiceChat `connectWebSocket`) -/

/-- The `connectionStatus` state of AdvancedVoiceChat. -/
inductive ConnStatus
  | connecting
  | connected
  | disconnected
deriving DecidableEq, Repr

/-- Connection-manager state: the `connectionStatus`, whether a socket is
registered in `wsConnection`, and the delays (milliseconds) of the reconnect
timers currently scheduled by `setTimeout` and not yet fired or cleared. -/
structure ConnState where
  status : ConnStatus := .disconnected
  wsConnection : Bool := false
  pendingReconnects : List ℕ := []
deriving DecidableEq, Repr

/-- The constant reconnect delay: `setTimeout(connectWebSocket, 3000)`. -/
def reconnectDelayMs : ℕ := 3000

/-- `connectWebSocket`: set status to `connecting` and open a socket. -/
def connectWebSocket (s : ConnState) : ConnState :=
  { s with status := .connecting }

/-- The `onopen` handler: status `connected`, register the socket. -/
def handleOpen (s : ConnState) : ConnState :=
  { s with status := .connected, wsConnection := true }

/-- The `onclose` handler (AdvancedVoiceChat lines 114–119): status
`disconnected`, drop the socket, and unconditionally schedule one reconnect
via `setTimeout(connectWebSocket, 3000)`. -/
def handleClose (s : ConnState) : ConnState :=
  { s with
    status := .disconnected
    wsConnection := false
    pendingReconnects := s.pendingReconnects ++ [reconnectDelayMs] }

/-- The `onerror` handler: status `disconnected` (no timer is scheduled
here; a failed connect attempt additionally fires `onclose`). -/
def handleConnError (s : ConnState) : ConnState :=
  { s with status := .disconnected }

/-- A scheduled reconnect timer fires: the timer is consumed and
`connectWebSocket` runs. -/
def fireReconnect (s : ConnState) : ConnState :=
  connectWebSocket { s with pendingReconnects := s.pendingReconnects.tail }

/-- The `useEffect` cleanup (RealTimeChat lines 70–74): if a socket is
registered in the ref, call `close()` on it — upon which the browser fires
that socket's `close` event, running the `onclose` handler. No
`clearTimeout` appears anywhere in the source, so pending reconnect timers
are never cancelled. (The AdvancedVoiceChat cleanup reads the `wsConnection`
captured at mount, which is still `null`, so there it does not even close
the socket.) -/
def effectCleanup (s : ConnState) : ConnState :=
  if s.wsConnection then handleClose s else s

/-- A failed connect attempt: the browser fires `error` and then `close` on
the socket that could not be established. -/
def connectAttemptFails (s : ConnState) : ConnState :=
  handleClose (handleConnError s)

/-! ### Claim C5 — explicit close is permanent (code bug) -/

/-- C5, evaluated at the failing input: an explicit `close()` (the effect
cleanup) on a connected instance with no pending timer does not leave the
instance permanently disconnected — the `onclose` handler fires and
schedules a reconnect after 3000 ms, and firing that timer puts the instance
back into `Connecting`. Pending timers are likewise not cancelled but
preserved (and one more is added), since the source never calls
`clearTimeout`. -/
theorem c5_close_schedules_reconnect :
    (effectCleanup
        { status := .connected, wsConnection := true,
          pendingReconnects := [] }).pendingReconnects =
      [reconnectDelayMs] ∧
      (fireReconnect (effectCleanup
        { status := .connected, wsConnection := true,
          pendingReconnects := [] })).status = .connecting ∧
      (effectCleanup
        { status := .connected, wsConnection := true,
          pendingReconnects := [reconnectDelayMs] }).pendingReconnects =
        [reconnectDelayMs, reconnectDelayMs] := by
  refine ⟨rfl, rfl, rfl⟩

/-! ### Claim C6 — disconnect schedules exactly one reconnect -/

/-- C6: when an established connection closes, the manager moves to
`Disconnected` and schedules exactly one reconnect after the fixed constant
delay of 3000 ms, and firing it moves to `Connecting` — the status sequence
is `Connected → Disconnected → Connecting`. A failed connect attempt
(`error` followed by `close` on the failed socket) likewise schedules
exactly one reconnect after the same fixed delay. -/
theorem disconnect_schedules_one_reconnect (s : ConnState)
    (hst : s.status = .connected) (hp : s.pendingReconnects = []) :
    s.status = .connected ∧
      (handleClose s).status = .disconnected ∧
      (handleClose s).pendingReconnects = [reconnectDelayMs] ∧
      (fireReconnect (handleClose s)).status = .connecting ∧
      (fireReconnect (handleClose s)).pendingReconnects = [] ∧
      ∀ s' : ConnState,
        (connectAttemptFails s').status = .disconnected ∧
          (connectAttemptFails s').pendingReconnects =
            s'.pendingReconnects ++ [reconnectDelayMs] := by
  refine ⟨hst, rfl, ?_, rfl, ?_, ?_⟩
  · simp [handleClose, hp]
  · simp [fireReconnect, connectWebSocket, handleClose, hp]
  · intro s'
    exact ⟨rfl, rfl⟩

/-- Witness for `disconnect_schedules_one_reconnect` at a freshly connected
instance. -/
theorem disconnect_schedules_one_reconnect_witness :
    (ConnState.status
        { status := .connected, wsConnection := true,
          pendingReconnects := [] }) = .connected ∧
      (handleClose
        { status := .connected, wsConnection := true,
          pendingReconnects := [] }).status = .disconnected ∧
      (handleClose
        { status := .connected, wsConnection := true,
          pendingReconnects := [] }).pendingReconnects =
        [reconnectDelayMs] ∧
      (fireReconnect (handleClose
        { status := .connected, wsConnection := true,
          pendingReconnects := [] })).status = .connecting ∧
      (fireReconnect (handleClose
        { status := .connected, wsConnection := true,
          pendingReconnects := [] })).pendingReconnects = [] ∧
      ∀ s' : ConnState,
        (connectAttemptFails s').status = .disconnected ∧
          (connectAttemptFails s').pendingReconnects =
            s'.pendingReconnects ++ [reconnectDelayMs] :=
  disconnect_schedules_one_reconnect
    { status := .connected, wsConnection := true, pendingReconnects := [] }
    rfl rfl

/-! ### Model selection (spec §4.5; dispatch field from AdvancedVoiceChat) -/

/-- The conversation mode (`'speed' | 'balanced' | 'quality'`). -/
inductive ConvMode
  | speed
  | balanced
  | quality
deriving DecidableEq, Repr

/-- The `ModelInfo` descriptor of AdvancedVoiceChat: identifier, ordinal
speed and quality ratings, availability flag, observed tokens/second, and a
resource cost class. -/
structure ModelInfo where
  name : String
  speed_rating : ℕ
  quality_rating : ℕ
  available : Bool
  tokens_per_second : ℚ := 0
  cost_class : ℕ := 0
deriving DecidableEq, Repr

/-- The rating targeted by each mode (§4.5: `Balanced` maximizes the sum). -/
def modeRating : ConvMode → ModelInfo → ℕ
  | .speed, m => m.speed_rating
  | .quality, m => m.quality_rating
  | .balanced, m => m.speed_rating + m.quality_rating

/-- Lexicographic selection key: mode rating first, then observed
tokens/second, then (dually ordered) resource cost class, so that a larger
key means higher rating, then higher throughput, then lower cost. -/
def selKey (mode : ConvMode) (m : ModelInfo) :
    Lex (ℕ × Lex (ℚ × OrderDual ℕ)) :=
  toLex (modeRating mode m, toLex (m.tokens_per_second,
    OrderDual.toDual m.cost_class))

/-- Selection failure from the specification taxonomy. -/
inductive SelError
  | noModelAvailable
deriving DecidableEq, Repr

/-- Modelled from the spec: the Model Selection Policy of §4.5 runs in the
language-model backend, which is not among the repository sources (only its
caller is — the `model_preference` field sent by `sendMessage` in
AdvancedVoiceChat). Per the spec it excludes unavailable models, picks the
one maximizing the mode rating with ties broken by highest observed
tokens/second and then lowest resource cost class (deterministically: the
first maximal entry of the list wins), and fails with `NoModelAvailable`
when no model is available. -/
def pickAuto (mode : ConvMode) (models : List ModelInfo) :
    Except SelError ModelInfo :=
  match (models.filter (fun m => m.available)).argmax (selKey mode) with
  | some m => .ok m
  | none => .error .noModelAvailable

/-- The `model_preference` field of the chat dispatch (AdvancedVoiceChat
lines 221–229): `autoModelSwitch ? null : currentModel` — `null` requests
automatic selection, a name pins that model. -/
def modelPreference (autoModelSwitch : Bool) (currentModel : String) :
    Option String :=
  if autoModelSwitch then none else some currentModel

/-- Modelled from the spec: a manual pin overrides the policy entirely; with
no pin the automatic policy chooses. -/
def selectModel (mode : ConvMode) (pin : Option String)
    (models : List ModelInfo) : Except SelError String :=
  match pin with
  | some p => .ok p
  | none => (pickAuto mode models).map (fun m => m.name)

lemma selKey_le_unpack (mode : ConvMode) (a b : ModelInfo)
    (h : selKey mode a ≤ selKey mode b) :
    modeRating mode a ≤ modeRating mode b ∧
      (modeRating mode a = modeRating mode b →
        a.tokens_per_second ≤ b.tokens_per_second ∧
          (a.tokens_per_second = b.tokens_per_second →
            b.cost_class ≤ a.cost_class)) := by
  rw [selKey, selKey, Prod.Lex.le_iff] at h
  rcases h with h | ⟨h1, h2⟩
  · exact ⟨le_of_lt h, fun he => absurd he (ne_of_lt h)⟩
  · refine ⟨le_of_eq h1, fun _ => ?_⟩
    rw [Prod.Lex.le_iff] at h2
    rcases h2 with h2 | ⟨h3, h4⟩
    · exact ⟨le_of_lt h2, fun he => absurd he (ne_of_lt h2)⟩
    · exact ⟨le_of_eq h3, fun _ => h4⟩

/-! ### Claim C8 — model selection policy -/

/-- C8 (spec-modelled policy): when `pickAuto` selects a model `m` for a
mode, `m` is an available member of the list, its mode rating (speed rating
in `Speed` mode, quality rating in `Quality` mode) is maximal among the
available models, and ties are broken by highest observed tokens/second and
then lowest resource cost class; the selection function is deterministic.
A manual pin — `model_preference` sent as `currentModel` when
`autoModelSwitch` is off — overrides the policy entirely, and clearing it
(`autoModelSwitch` on) restores automatic selection. -/
theorem modelSelection_policy (mode : ConvMode) (models : List ModelInfo)
    (m : ModelInfo) (cur : String)
    (hm : pickAuto mode models = .ok m) :
    m ∈ models ∧ m.available = true ∧
      (∀ m' ∈ models, m'.available = true →
        modeRating mode m' ≤ modeRating mode m ∧
          (modeRating mode m' = modeRating mode m →
            m'.tokens_per_second ≤ m.tokens_per_second ∧
              (m'.tokens_per_second = m.tokens_per_second →
                m.cost_class ≤ m'.cost_class))) ∧
      selectModel mode (modelPreference false cur) models = .ok cur ∧
      selectModel mode (modelPreference true cur) models =
        (pickAuto mode models).map (fun x => x.name) := by
  have hopt : ((models.filter (fun x => x.available)).argmax (selKey mode)) =
      some m := by
    rcases hcase : ((models.filter (fun x => x.available)).argmax
        (selKey mode)) with _ | m'
    · rw [pickAuto, hcase] at hm
      cases hm
    · rw [pickAuto, hcase] at hm
      cases hm
      exact hcase
  have hmem : m ∈ models.filter (fun x => x.available) :=
    List.argmax_mem hopt
  have hmem' := List.mem_filter.mp hmem
  refine ⟨hmem'.1, by simpa using hmem'.2, ?_, ?_, ?_⟩
  · intro m' hm' ha'
    have hmemf : m' ∈ models.filter (fun x => x.available) :=
      List.mem_filter.mpr ⟨hm', by simpa using ha'⟩
    exact selKey_le_unpack mode m' m (List.le_of_mem_argmax hmemf hopt)
  · rfl
  · rfl

/-- Witness for `modelSelection_policy`: two available models, speed ratings
5 and 2 — `Speed` mode picks the first; a pinned `currentModel` is returned
verbatim. -/
theorem modelSelection_policy_witness :
    let A : ModelInfo :=
      { name := "gemma2:2b", speed_rating := 5, quality_rating := 2,
        available := true, tokens_per_second := 10, cost_class := 1 }
    let B : ModelInfo :=
      { name := "llama3:8b", speed_rating := 2, quality_rating := 5,
        available := true, tokens_per_second := 12, cost_class := 3 }
    A ∈ [A, B] ∧ A.available = true ∧
      (∀ m' ∈ [A, B], m'.available = true →
        modeRating .speed m' ≤ modeRating .speed A ∧
          (modeRating .speed m' = modeRating .speed A →
            m'.tokens_per_second ≤ A.tokens_per_second ∧
              (m'.tokens_per_second = A.tokens_per_second →
                A.cost_class ≤ m'.cost_class))) ∧
      selectModel .speed (modelPreference false "pinned") [A, B] =
        .ok "pinned" ∧
      selectModel .speed (modelPreference true "pinned") [A, B] =
        (pickAuto .speed [A, B]).map (fun x => x.name) :=
  modelSelection_policy .speed _ _ "pinned" rfl
